import Mathlib

/-!
Shallow embedding of the poker web client session context
(examples/poker/client/web/src/context/GameContext.tsx, the
HathoraContextProvider component) and of its generic response handler
HandleConnection.  External collaborators (the HathoraClient transport,
lookupUser, session storage) are passed in as explicit oracles: a value of
type `Except String A` stands for a promise that either resolves with an `A`
or rejects with an error message.  React state hooks become fields of a
record `Ctx`; the useRef guard isLoginIn becomes a Bool field.  Calls the
provider issues to collaborators (loginAnonymous requests, create-room
requests, lookupUser requests, toast notifications, transport teardowns) are
returned as extra output components so theorems can count them.
-/

namespace Hathora

/-- UserData record (api/base): the identity decoded from a token or returned
by lookupUser. -/
structure UserData where
  id : String
  name : String
deriving DecidableEq, Repr

/-- Response of a dispatched game action (api/base): success, or a failure
carrying a descriptive message.  The code only inspects whether
response.type is the string error. -/
inductive Response where
  | ok : Response
  | error (msg : String) : Response
deriving DecidableEq, Repr

/-- The slice of UpdateArgs state that the provider reads: the turn field
(absent when no turn is active, matching the truthiness guard the effect
applies to playerState?.turn) plus all remaining game specific fields,
abstracted into one opaque number. -/
structure GameState where
  turn : Option String
  rest : Nat
deriving DecidableEq, Repr

/-- IInitializeRequest; IInitializeRequest.default() is the default
initialization payload passed by createGame. -/
structure InitPayload where
  raw : Nat
deriving DecidableEq, Repr

/-- The default initialization payload IInitializeRequest.default(). -/
def InitPayload.default : InitPayload := ⟨0⟩

/-- The playerNameMapping Record of string to UserData, embedded as an
association list; later writes shadow earlier ones. -/
def mapFind (m : List (String × UserData)) (uid : String) : Option UserData :=
  List.lookup uid m

/-- The spread update in setPlayerNameMapping: insert or overwrite the entry
for uid. -/
def mapInsert (m : List (String × UserData)) (uid : String) (u : UserData) :
    List (String × UserData) :=
  (uid, u) :: m

/-- The state hooks of HathoraContextProvider.  connection holds the current
handle, identified by its creation index; nextHandle counts how many handles
client.connect has produced.  connectionError is embedded by its message. -/
structure Ctx where
  token : Option String
  connection : Option Nat
  nextHandle : Nat
  playerState : Option GameState
  events : Option Nat
  connectionError : Option String
  connecting : Option Bool
  loggingIn : Option Bool
  mapping : List (String × UserData)
  user : Option UserData
  isLoginIn : Bool
deriving DecidableEq, Repr

/-- The initial provider state: nothing stored, no connection, guard clear. -/
def init : Ctx :=
  { token := none, connection := none, nextHandle := 0, playerState := none,
    events := none, connectionError := none, connecting := none,
    loggingIn := none, mapping := [], user := none, isLoginIn := false }

/-- JavaScript truthiness of a possibly absent string, as used by the guards
if (token) and if (playerState?.turn): returns the string when it is present
and nonempty, and none otherwise. -/
def truthyVal : Option String → Option String
  | none => none
  | some s => if s = "" then none else some s

/-- getUserName (lines 175 to 187), synchronous return value only: the cached
name when the id is present in the mapping, else the raw id placeholder. -/
def getUserNameView (m : List (String × UserData)) (uid : String) : String :=
  match mapFind m uid with
  | some u => u.name
  | none => uid

/-- getUserName together with the asynchronous effect of the lookup it
issues on a cache miss.  Output: the synchronously returned name, the mapping
once the issued lookup (if any) has settled, and the number of lookupUser
requests issued by this call.  On a hit no lookup is issued and the mapping
is untouched; on a miss exactly one lookup is issued, and its resolution
writes the response under uid (a rejection leaves the mapping unchanged,
since the then continuation never runs and there is no catch). -/
def getUserNameStep (m : List (String × UserData)) (uid : String)
    (lookup : String → Except String UserData) :
    String × List (String × UserData) × Nat :=
  match mapFind m uid with
  | some u => (u.name, m, 0)
  | none =>
    match lookup uid with
    | Except.ok r => (uid, mapInsert m uid r, 1)
    | Except.error _ => (uid, m, 1)

/-- The synchronous prefix of login (lines 69 to 74), up to the await of
client.loginAnonymous: when the isLoginIn guard is clear, set loggingIn and
the guard and issue the network login request; when the guard is set, do
nothing at all.  The Bool reports whether a loginAnonymous request was
issued. -/
def loginStart (s : Ctx) : Ctx × Bool :=
  if s.isLoginIn then (s, false)
  else ({ s with loggingIn := some true, isLoginIn := true }, true)

/-- The continuation of login after loginAnonymous settles (lines 74 to 87).
On a resolved token: when the token is truthy, decode it locally with
HathoraClient.getUserFromToken, store the user and seed the name mapping
with that record; then persist the token and return it.  On a rejection the
catch only logs, so login resolves with no token.  The finally clause clears
the guard and loggingIn on both paths. -/
def loginFinish (decode : String → UserData) (s : Ctx)
    (net : Except String String) : Ctx × Option String :=
  match net with
  | Except.ok t =>
    let s1 :=
      if t ≠ "" then
        let u := decode t
        { s with user := some u, mapping := mapInsert s.mapping u.id u }
      else s
    ({ s1 with token := some t, isLoginIn := false, loggingIn := some false },
     some t)
  | Except.error _ =>
    ({ s with isLoginIn := false, loggingIn := some false }, none)

/-- One complete run of login: when the guard is set, return immediately
with no token and no state change; otherwise run the synchronous prefix and
then the continuation on the settled network outcome.  Returns the resulting
state and the token login resolves with. -/
def loginStep (decode : String → UserData) (s : Ctx)
    (net : Except String String) : Ctx × Option String :=
  if s.isLoginIn then (s, none)
  else loginFinish decode { s with loggingIn := some true,
                                   isLoginIn := true } net

/-- The whole login method (lines 69 to 89), given the outcome of the one
loginAnonymous call it may issue.  First component: the outcome delivered to
the caller; the only await inside the try block is the loginAnonymous call,
whose rejection the catch converts into a resolution with no token (the
error branch of loginFinish), so login always resolves.  Second component:
the number of loginAnonymous requests issued. -/
def login (decode : String → UserData) (s : Ctx)
    (net : Except String String) :
    Except String (Ctx × Option String) × Nat :=
  (Except.ok (loginStep decode s net), if s.isLoginIn then 0 else 1)

/-- connect (lines 91 to 110): set connecting, ask the transport for a new
connection bound to the room (registering the two callbacks below on it),
store the handle and return it.  The new handle is identified by the current
value of nextHandle. -/
def connect (s : Ctx) : Ctx :=
  { s with connecting := some true, connection := some s.nextHandle,
           nextHandle := s.nextHandle + 1 }

/-- The on state update callback that connect registers (lines 97 to 100), as
run when the transport fires it: store the snapshot and clear connecting.
The closure inspects neither the connection field nor the identity of the
handle it was registered on. -/
def onUpdate (s : Ctx) (st : GameState) : Ctx :=
  { s with playerState := some st, connecting := some false }

/-- The on failure callback that connect registers (lines 101 to 104): store
the connection error and clear connecting, again with no handle identity
check. -/
def onFailure (s : Ctx) (e : String) : Ctx :=
  { s with connectionError := some e, connecting := some false }

/-- disconnect (lines 112 to 120), also reporting which handle, if any, the
transport was told to tear down: when a handle exists, call its transport
teardown and clear the handle, the snapshot, the events and the connection
error; otherwise do nothing. -/
def disconnectT (s : Ctx) : Ctx × Option Nat :=
  match s.connection with
  | some h =>
    ({ s with connection := none, playerState := none, events := none,
              connectionError := none }, some h)
  | none => (s, none)

/-- disconnect, state part only. -/
def disconnect (s : Ctx) : Ctx := (disconnectT s).1

/-- endGame (lines 164 to 167), also reporting which handle, if any, the
transport was told to tear down: clear the snapshot and call the optional
chained teardown on the current handle.  Nothing else is written. -/
def endGameT (s : Ctx) : Ctx × Option Nat :=
  ({ s with playerState := none }, s.connection)

/-- endGame, state part only. -/
def endGame (s : Ctx) : Ctx := (endGameT s).1

/-- The events the connection machinery reacts to: the context methods
connect, disconnect and endGame, and the transport firing the update or
failure callback registered on handle h. -/
inductive Ev where
  | connect
  | disconnect
  | endGame
  | update (h : Nat) (st : GameState)
  | failure (h : Nat) (e : String)
deriving DecidableEq, Repr

/-- One step of the provider under an event.  A callback of handle h can
fire whenever h was created (h < nextHandle): the code installs no staleness
guard, so the callback body runs unconditionally. -/
def step (s : Ctx) : Ev → Ctx
  | Ev.connect => connect s
  | Ev.disconnect => disconnect s
  | Ev.endGame => endGame s
  | Ev.update h st => if h < s.nextHandle then onUpdate s st else s
  | Ev.failure h e => if h < s.nextHandle then onFailure s e else s

/-- Run a sequence of events from a state. -/
def run (s : Ctx) (evs : List Ev) : Ctx := evs.foldl step s

/-- HandleConnection (lines 36 to 52): await the response of a dispatched
action; when it is an error response, show its message as a transient auto
dismissing toast; return the response.  Second component: the toast shown,
if any. -/
def HandleConnection (r : Response) : Response × Option String :=
  match r with
  | Response.error m => (Response.error m, some m)
  | Response.ok => (Response.ok, none)

/-- createGame (lines 122 to 133), given the create room oracle, the token
decoder, and the outcome of the loginAnonymous call that the inner login
would issue.  With a truthy token, await client.create with the default
payload; otherwise run login first and, when it yields a truthy token, await
client.create with that token.  Neither create call is wrapped in a try
catch, so a rejection of client.create rejects createGame itself.  Output:
the outcome delivered to the caller (resolving with the game id, or with no
value after a login failure), the list of create room requests issued as
token and payload pairs, and the state after the call. -/
def createGame (create : String → InitPayload → Except String String)
    (decode : String → UserData) (s : Ctx) (net : Except String String) :
    Except String (Option String) × List (String × InitPayload) × Ctx :=
  match truthyVal s.token with
  | some t =>
    ((create t InitPayload.default).map some, [(t, InitPayload.default)], s)
  | none =>
    match truthyVal (loginStep decode s net).2 with
    | some t =>
      ((create t InitPayload.default).map some,
       [(t, InitPayload.default)], (loginStep decode s net).1)
    | none => (Except.ok none, [], (loginStep decode s net).1)

/-- joinGame (lines 135 to 141), given the response the join action resolves
with: connect to the room, then await connection.joinGame on the returned
handle.  The response is discarded without being routed through
HandleConnection.  Output: the outcome delivered to the caller, the state
after the call, the handle the join action was issued on, and the toast
shown (always none: the code never inspects the join response). -/
def joinGame (s : Ctx) (resp : Response) :
    Except String Unit × Ctx × Nat × Option String :=
  let s1 := connect s
  let _ := resp
  (Except.ok (), s1, s.nextHandle, none)

/-- startGame (lines 143 to 147): when a connection exists, await the start
action through HandleConnection; otherwise silently do nothing.  Output: the
outcome delivered to the caller and the toast shown. -/
def startGame (s : Ctx) (resp : Response) :
    Except String Unit × Option String :=
  match s.connection with
  | some _ => (Except.ok (), (HandleConnection resp).2)
  | none => (Except.ok (), none)

/-- playCard (lines 149 to 156): same shape as startGame, with the card
argument forwarded to the transport. -/
def playCard (s : Ctx) (card : Nat) (resp : Response) :
    Except String Unit × Option String :=
  let _ := card
  match s.connection with
  | some _ => (Except.ok (), (HandleConnection resp).2)
  | none => (Except.ok (), none)

/-- drawCard (lines 158 to 162): same shape as startGame. -/
def drawCard (s : Ctx) (resp : Response) :
    Except String Unit × Option String :=
  match s.connection with
  | some _ => (Except.ok (), (HandleConnection resp).2)
  | none => (Except.ok (), none)

/-- The token effect (lines 189 to 193): whenever a truthy token is present,
populate user by decoding the token locally.  It writes no other field; in
particular it does not touch the name mapping. -/
def tokenEffect (decode : String → UserData) (s : Ctx) : Ctx :=
  match truthyVal s.token with
  | some t => { s with user := some (decode t) }
  | none => s

/-- The dependency of the turn effect: playerState?.turn. -/
def turnDep : Option GameState → Option String
  | none => none
  | some g => g.turn

/-- The two toasts the turn effect can show: success addressed to the
current user, or info naming the player whose turn it is. -/
inductive TurnToast where
  | yourTurn
  | playersTurn (name : String)
deriving DecidableEq, Repr

/-- Body of the turn effect (lines 195 to 203), run with the current value of
the dependency, the id of the current user (user?.id) and the name mapping:
when the turn is truthy, toast success when it is the id of the current
user, else toast info naming the player through the synchronous value of
getUserName. -/
def turnEffectBody (m : List (String × UserData)) (u : Option String)
    (dep : Option String) : Option TurnToast :=
  match dep with
  | none => none
  | some t =>
    if t = "" then none
    else if some t = u then some TurnToast.yourTurn
    else some (TurnToast.playersTurn (getUserNameView m t))

/-- The toast emitted when the stored snapshot changes from prev to next:
React re-runs the effect exactly when its dependency playerState?.turn
differs from the previous value, and the body then decides the toast. -/
def turnEmit (m : List (String × UserData)) (u : Option String)
    (prev next : Option GameState) : Option TurnToast :=
  if turnDep next = turnDep prev then none
  else turnEffectBody m u (turnDep next)

/-- A sample provider state with an active connection, a stored snapshot and
a recorded connection error, used to instantiate theorems with
hypotheses. -/
def sConn : Ctx :=
  { init with connection := some 0, nextHandle := 1,
              playerState := some ⟨some "A", 3⟩,
              connectionError := some "e1" }

/-- C1, counterexample: after two consecutive connect calls the most recent
handle is handle 1, yet a late update callback of the superseded handle 0
changes playerState from none to the pushed snapshot, and a late failure
callback of handle 0 changes the stored connection error.  The claim that
only callbacks of the most recent connect call ever mutate these fields is
therefore false. -/
theorem c1_stale_callback_cex :
    (run init [Ev.connect, Ev.connect]).connection = some 1 ∧
    (run init [Ev.connect, Ev.connect]).playerState = none ∧
    (run init [Ev.connect, Ev.connect, Ev.update 0 ⟨some "p1", 0⟩]).playerState
      = some ⟨some "p1", 0⟩ ∧
    (run init [Ev.connect, Ev.connect, Ev.failure 0 "boom"]).connectionError
      = some "boom" :=
  ⟨rfl, rfl, rfl, rfl⟩

/-- C1, amended: the on update and on failure callbacks installed by connect
mutate playerState and connectionError unconditionally; a late callback of
any created handle, superseded or current, still writes these fields, since
the code contains no staleness guard comparing the callback to the current
handle. -/
theorem c1_no_staleness_guard (s : Ctx) (h : Nat) (st : GameState) (e : String)
    (hh : h < s.nextHandle) :
    step s (Ev.update h st) = onUpdate s st ∧
    (step s (Ev.update h st)).playerState = some st ∧
    step s (Ev.failure h e) = onFailure s e ∧
    (step s (Ev.failure h e)).connectionError = some e := by
  simp [step, hh, onUpdate, onFailure]

/-- C1, witness: the amended theorem evaluated on a state with two created
handles, of which handle 1 is current, and a late callback of handle 0. -/
theorem c1_no_staleness_guard_witness :
    (0 : Nat) < 2 ∧
    (step { init with nextHandle := 2, connection := some 1 }
        (Ev.update 0 ⟨some "p1", 0⟩)).playerState = some ⟨some "p1", 0⟩ :=
  ⟨by decide,
   (c1_no_staleness_guard { init with nextHandle := 2, connection := some 1 }
     0 ⟨some "p1", 0⟩ "boom" (by decide)).2.1⟩

/-- C2, counterexample: two consecutive snapshots whose turn fields differ,
the second having no active turn, emit no notification: the truthiness guard
of the effect body suppresses the toast even though the dependency changed.
The claimed iff therefore fails. -/
theorem c2_turn_toast_cex :
    turnDep (some ⟨none, 0⟩) ≠ turnDep (some ⟨some "A", 0⟩) ∧
    turnEmit [] (some "me") (some ⟨some "A", 0⟩) (some ⟨none, 0⟩) = none := by
  decide

/-- C2, amended: a toast is emitted iff the dependency playerState?.turn
changed and the new turn value is present and nonempty; in particular
changes to other snapshot fields, and changes to an absent or empty turn,
emit nothing.  When emitted, the toast is the success toast exactly when the
new turn equals the id of the current user, and otherwise the info toast
naming the player through the synchronous value of getUserName. -/
theorem c2_turn_toast_spec (m : List (String × UserData)) (u : Option String)
    (prev next : Option GameState) :
    ((turnEmit m u prev next).isSome ↔
      (turnDep next ≠ turnDep prev ∧ ∃ t, turnDep next = some t ∧ t ≠ "")) ∧
    (∀ t, turnDep next = some t → t ≠ "" → turnDep next ≠ turnDep prev →
      turnEmit m u prev next =
        if some t = u then some TurnToast.yourTurn
        else some (TurnToast.playersTurn (getUserNameView m t))) := by
  constructor
  · by_cases hd : turnDep next = turnDep prev
    · simp [turnEmit, hd]
    · unfold turnEmit
      rw [if_neg hd]
      cases hnd : turnDep next with
      | none => simp [turnEffectBody]
      | some t =>
        rw [hnd] at hd
        by_cases ht : t = ""
        · simp [turnEffectBody, ht, hd]
        · constructor
          · intro _
            exact ⟨hd, t, rfl, ht⟩
          · intro _
            simp only [turnEffectBody]
            rw [if_neg ht]
            by_cases hu : some t = u
            · rw [if_pos hu]
              rfl
            · rw [if_neg hu]
              rfl
  · intro t hnd ht hd
    rw [hnd] at hd
    unfold turnEmit
    rw [hnd, if_neg hd]
    simp [turnEffectBody, ht]

/-- C2, witness: the amended theorem evaluated on a first snapshot whose
turn is the current user. -/
theorem c2_turn_toast_spec_witness :
    turnEmit [] (some "me") none (some ⟨some "me", 0⟩)
      = some TurnToast.yourTurn := by
  have h := (c2_turn_toast_spec [] (some "me") none (some ⟨some "me", 0⟩)).2
    "me" rfl (by decide) (by decide)
  simpa using h

/-- C3, counterexample: with a token present and a create room request that
rejects, createGame delivers the rejection to its caller unconverted: no try
catch guards the awaited client.create call, so the claimed policy that no
method ever returns a rejected promise is false. -/
theorem c3_createGame_rejects_cex :
    (createGame (fun _ _ => Except.error "network down") (fun t => ⟨t, t⟩)
      { init with token := some "tok" } (Except.ok "t")).1
      = Except.error "network down" := rfl

/-- C3, amended: login, joinGame, startGame, playCard and drawCard always
resolve (connect, disconnect, endGame and getUserName are synchronous and
total, as embedded above), and the only rejection createGame can deliver is
a rejection of the create room request it issued with the default payload,
passed through unchanged. -/
theorem c3_no_throw_policy (decode : String → UserData)
    (create : String → InitPayload → Except String String) (s : Ctx)
    (net : Except String String) (resp : Response) (card : Nat) :
    (∃ r, (login decode s net).1 = Except.ok r) ∧
    (joinGame s resp).1 = Except.ok () ∧
    (startGame s resp).1 = Except.ok () ∧
    (playCard s card resp).1 = Except.ok () ∧
    (drawCard s resp).1 = Except.ok () ∧
    (∀ e, (createGame create decode s net).1 = Except.error e →
      ∃ t, create t InitPayload.default = Except.error e) := by
  refine ⟨⟨loginStep decode s net, rfl⟩, rfl, ?_, ?_, ?_, ?_⟩
  · unfold startGame
    cases s.connection <;> rfl
  · unfold playCard
    cases s.connection <;> rfl
  · unfold drawCard
    cases s.connection <;> rfl
  · intro e he
    cases htok : truthyVal s.token with
    | some t =>
      have hval : createGame create decode s net
          = ((create t InitPayload.default).map some,
             [(t, InitPayload.default)], s) := by
        unfold createGame
        rw [htok]
      rw [hval] at he
      cases hc : create t InitPayload.default with
      | ok g =>
        rw [hc] at he
        simp [Except.map] at he
      | error e1 =>
        rw [hc] at he
        simp [Except.map] at he
        exact ⟨t, by rw [hc, he]⟩
    | none =>
      cases htk : truthyVal (loginStep decode s net).2 with
      | some t =>
        have hval : createGame create decode s net
            = ((create t InitPayload.default).map some,
               [(t, InitPayload.default)], (loginStep decode s net).1) := by
          unfold createGame
          rw [htok, htk]
        rw [hval] at he
        cases hc : create t InitPayload.default with
        | ok g =>
          rw [hc] at he
          simp [Except.map] at he
        | error e1 =>
          rw [hc] at he
          simp [Except.map] at he
          exact ⟨t, by rw [hc, he]⟩
      | none =>
        have hval : createGame create decode s net
            = (Except.ok none, [], (loginStep decode s net).1) := by
          unfold createGame
          rw [htok, htk]
        rw [hval] at he
        simp at he

/-- C3, witness: the amended theorem evaluated on a connected state and a
failing action response, and on a state whose createGame issues a rejected
create room request. -/
theorem c3_no_throw_policy_witness :
    (startGame sConn (Response.error "bad move")).1 = Except.ok () ∧
    (∃ t, (fun (_ : String) (_ : InitPayload) =>
        Except.error (α := String) "down") t InitPayload.default
      = Except.error "down") :=
  ⟨(c3_no_throw_policy (fun t => ⟨t, t⟩) (fun _ _ => Except.error "down")
      sConn (Except.ok "t") (Response.error "bad move") 0).2.2.1,
   (c3_no_throw_policy (fun t => ⟨t, t⟩) (fun _ _ => Except.error "down")
      { init with token := some "tok" } (Except.ok "t")
      (Response.error "bad move") 0).2.2.2.2.2 "down" rfl⟩

/-- C4, counterexample: when the join action resolves with a failure
response, joinGame shows no notification at all: the response is discarded
without passing through HandleConnection, which would have shown the
message.  The claimed transient failure notification therefore never
appears. -/
theorem c4_join_failure_silent_cex :
    (joinGame init (Response.error "room full")).2.2.2 = none ∧
    (HandleConnection (Response.error "room full")).2 = some "room full" :=
  ⟨rfl, rfl⟩

/-- C4, amended: when connect succeeds and the join action fails, the
connection remains established on the freshly created handle, the join was
issued on that handle, the stored snapshot is not rolled back or cleared,
and joinGame resolves; however the join failure is silently discarded
rather than shown through the generic response handling path. -/
theorem c4_joinGame_keeps_connection (s : Ctx) (resp : Response) :
    (joinGame s resp).2.1.connection = some s.nextHandle ∧
    (joinGame s resp).2.2.1 = s.nextHandle ∧
    (joinGame s resp).2.1.playerState = s.playerState ∧
    (joinGame s resp).1 = Except.ok () ∧
    (joinGame s resp).2.2.2 = none :=
  ⟨rfl, rfl, rfl, rfl, rfl⟩

/-- C5: createGame with a truthy token issues one create room request with
that token and the default payload and resolves with the game id; with no
token and a failing login it resolves with no value and issues no create
request, rejecting nothing; with no token and a login that yields a truthy
token it issues the create request with that token and the default payload
and resolves with the game id. -/
theorem c5_createGame_spec
    (create : String → InitPayload → Except String String)
    (decode : String → UserData) (s : Ctx) (net : Except String String) :
    (∀ t g, truthyVal s.token = some t →
      create t InitPayload.default = Except.ok g →
      createGame create decode s net
        = (Except.ok (some g), [(t, InitPayload.default)], s)) ∧
    (∀ e, truthyVal s.token = none → s.isLoginIn = false →
      net = Except.error e →
      createGame create decode s net
        = (Except.ok none, [],
           { s with loggingIn := some false, isLoginIn := false })) ∧
    (∀ t g, truthyVal s.token = none → s.isLoginIn = false →
      net = Except.ok t → t ≠ "" →
      create t InitPayload.default = Except.ok g →
      (createGame create decode s net).1 = Except.ok (some g) ∧
      (createGame create decode s net).2.1 = [(t, InitPayload.default)]) := by
  refine ⟨?_, ?_, ?_⟩
  · intro t g htok hc
    have hval : createGame create decode s net
        = ((create t InitPayload.default).map some,
           [(t, InitPayload.default)], s) := by
      unfold createGame
      rw [htok]
    rw [hval, hc]
    rfl
  · intro e htok hg hnet
    have hstep : loginStep decode s net
        = ({ s with loggingIn := some false, isLoginIn := false }, none) := by
      unfold loginStep loginFinish
      rw [hg, hnet]
      rfl
    have hval : createGame create decode s net
        = (Except.ok none, [],
           { s with loggingIn := some false, isLoginIn := false }) := by
      unfold createGame
      rw [htok, hstep]
      rfl
    exact hval
  · intro t g htok hg hnet ht hc
    have hstep : (loginStep decode s net).2 = some t := by
      unfold loginStep loginFinish
      rw [hg, hnet]
      rfl
    have htk : truthyVal (loginStep decode s net).2 = some t := by
      rw [hstep]
      simp [truthyVal, ht]
    have hval : createGame create decode s net
        = ((create t InitPayload.default).map some,
           [(t, InitPayload.default)], (loginStep decode s net).1) := by
      unfold createGame
      rw [htok, htk]
    rw [hval, hc]
    exact ⟨rfl, rfl⟩

/-- C5, witness: the theorem evaluated on the token present branch and on
the login failure branch. -/
theorem c5_createGame_spec_witness :
    createGame (fun _ _ => Except.ok "game1") (fun t => ⟨t, t⟩)
      { init with token := some "tok" } (Except.ok "t")
      = (Except.ok (some "game1"), [("tok", InitPayload.default)],
         { init with token := some "tok" }) ∧
    createGame (fun _ _ => Except.ok "game1") (fun t => ⟨t, t⟩) init
      (Except.error "net down")
      = (Except.ok none, [],
         { init with loggingIn := some false, isLoginIn := false }) :=
  ⟨(c5_createGame_spec (fun _ _ => Except.ok "game1") (fun t => ⟨t, t⟩)
      { init with token := some "tok" } (Except.ok "t")).1 "tok" "game1"
      rfl rfl,
   (c5_createGame_spec (fun _ _ => Except.ok "game1") (fun t => ⟨t, t⟩)
      init (Except.error "net down")).2.1 "net down" rfl rfl rfl⟩

/-- C6: getUserName on a cached id returns the cached name synchronously,
issues no lookup and leaves the mapping unchanged; on a missing id it
returns the raw id and issues exactly one lookup whose resolution writes the
resolved record under that id; after that resolution every further call
returns the resolved name, issues no lookup and changes nothing. -/
theorem c6_getUserName_cache (m : List (String × UserData)) (uid : String)
    (lookup : String → Except String UserData) :
    (∀ u, mapFind m uid = some u →
      getUserNameStep m uid lookup = (u.name, m, 0)) ∧
    (mapFind m uid = none →
      (getUserNameStep m uid lookup).1 = uid ∧
      (getUserNameStep m uid lookup).2.2 = 1) ∧
    (∀ r, mapFind m uid = none → lookup uid = Except.ok r →
      (getUserNameStep m uid lookup).2.1 = mapInsert m uid r ∧
      mapFind (mapInsert m uid r) uid = some r ∧
      getUserNameStep (mapInsert m uid r) uid lookup
        = (r.name, mapInsert m uid r, 0)) := by
  have hfind : ∀ r : UserData, mapFind (mapInsert m uid r) uid = some r := by
    intro r
    simp [mapFind, mapInsert, List.lookup]
  refine ⟨?_, ?_, ?_⟩
  · intro u hu
    simp [getUserNameStep, hu]
  · intro h0
    cases hl : lookup uid <;> simp [getUserNameStep, h0, hl]
  · intro r h0 hl
    refine ⟨by simp [getUserNameStep, h0, hl], hfind r, ?_⟩
    simp [getUserNameStep, hfind r]

/-- C6, witness: the theorem evaluated on an empty mapping, an unknown id
and a lookup that resolves; the call after resolution returns the cached
name with no further lookup. -/
theorem c6_getUserName_cache_witness :
    mapFind ([] : List (String × UserData)) "u1" = none ∧
    getUserNameStep (mapInsert [] "u1" ⟨"u1", "Alice"⟩) "u1"
        (fun _ => Except.ok ⟨"u1", "Alice"⟩)
      = ("Alice", mapInsert [] "u1" ⟨"u1", "Alice"⟩, 0) := by
  refine ⟨rfl, ?_⟩
  have h := (c6_getUserName_cache [] "u1"
    (fun _ => Except.ok ⟨"u1", "Alice"⟩)).2.2 ⟨"u1", "Alice"⟩ rfl rfl
  exact h.2.2

/-- C7: login is reentrant safe.  Starting from a state whose guard is
clear, the synchronous prefix of a first login call issues the one
loginAnonymous request and sets the guard; a second complete login call made
while the first is still in flight issues zero requests, changes no state
and resolves with no token, so the two concurrent calls issue exactly one
request in total. -/
theorem c7_login_reentrant (decode : String → UserData) (s : Ctx)
    (net : Except String String) (h : s.isLoginIn = false) :
    (loginStart s).2 = true ∧
    login decode (loginStart s).1 net
      = (Except.ok ((loginStart s).1, none), 0) := by
  constructor
  · simp [loginStart, h]
  · simp [loginStart, login, loginStep, h]

/-- C7, witness: the theorem evaluated from the initial state. -/
theorem c7_login_reentrant_witness :
    (loginStart init).2 = true ∧
    login (fun t => ⟨t, t⟩) (loginStart init).1 (Except.ok "tok")
      = (Except.ok ((loginStart init).1, none), 0) :=
  c7_login_reentrant (fun t => ⟨t, t⟩) init (Except.ok "tok") rfl

/-- C8: when a handle exists, disconnect tells the transport to tear that
handle down and clears the handle, the snapshot and the connection error
(and the events); when no handle exists it is a complete no-op: no teardown,
no error, every field left unchanged. -/
theorem c8_disconnect_spec (s : Ctx) :
    (∀ h, s.connection = some h →
      disconnectT s
        = ({ s with connection := none, playerState := none, events := none,
                    connectionError := none }, some h)) ∧
    (s.connection = none → disconnectT s = (s, none)) := by
  constructor
  · intro h hc
    simp [disconnectT, hc]
  · intro hc
    simp [disconnectT, hc]

/-- C8, witness: the theorem evaluated on a connected state with a stored
snapshot and error, and on the all absent initial state. -/
theorem c8_disconnect_spec_witness :
    disconnectT sConn
      = ({ sConn with connection := none, playerState := none, events := none,
                      connectionError := none }, some 0) ∧
    disconnectT init = (init, none) :=
  ⟨(c8_disconnect_spec sConn).1 0 rfl, (c8_disconnect_spec init).2 rfl⟩

/-- C9, counterexample: when a persisted token is loaded at startup, the
token effect populates user from the locally decoded token but leaves the
name mapping untouched, so with an empty persisted mapping a getUserName
call for the current user does issue a lookup.  The claimed seeding of the
cache on the startup path, and the consequent absence of self lookups, are
therefore false. -/
theorem c9_startup_no_seed_cex :
    (tokenEffect (fun _ => ⟨"u1", "Alice"⟩)
      { init with token := some "tok" }).user = some ⟨"u1", "Alice"⟩ ∧
    (tokenEffect (fun _ => ⟨"u1", "Alice"⟩)
      { init with token := some "tok" }).mapping = [] ∧
    (getUserNameStep
        (tokenEffect (fun _ => ⟨"u1", "Alice"⟩)
          { init with token := some "tok" }).mapping
        "u1" (fun _ => Except.ok ⟨"u1", "Alice"⟩)).2.2 = 1 :=
  ⟨rfl, rfl, rfl⟩

/-- C9, amended: on a successful login with a truthy token the user is
derived by decoding the token locally, the user field is populated with that
record and the name mapping is seeded with it, so the current user resolves
from the cache; on a persisted token loaded at startup the token effect
populates the user field from the locally decoded token but writes nothing
into the name mapping. -/
theorem c9_login_seeds_cache (decode : String → UserData) (s : Ctx)
    (t : String) (hg : s.isLoginIn = false) (ht : t ≠ "") :
    (∃ s1, (login decode s (Except.ok t)).1 = Except.ok (s1, some t) ∧
      s1.user = some (decode t) ∧
      mapFind s1.mapping (decode t).id = some (decode t) ∧
      s1.token = some t) ∧
    ((tokenEffect decode s).mapping = s.mapping ∧
      (∀ tk, truthyVal s.token = some tk →
        (tokenEffect decode s).user = some (decode tk))) := by
  constructor
  · have hstep : loginStep decode s (Except.ok t)
        = ({ s with loggingIn := some false, isLoginIn := false,
                    user := some (decode t),
                    mapping := mapInsert s.mapping (decode t).id (decode t),
                    token := some t }, some t) := by
      unfold loginStep loginFinish
      rw [hg]
      simp [ht]
    refine ⟨(loginStep decode s (Except.ok t)).1, ?_, ?_, ?_, ?_⟩
    · unfold login
      rw [hstep]
    · rw [hstep]
    · rw [hstep]
      simp [mapFind, mapInsert, List.lookup]
    · rw [hstep]
  · constructor
    · unfold tokenEffect
      cases htk : truthyVal s.token <;> rfl
    · intro tk htk
      unfold tokenEffect
      rw [htk]

/-- C9, witness: the amended theorem evaluated on the initial state with a
concrete decoder. -/
theorem c9_login_seeds_cache_witness :
    ∃ s1, (login (fun _ => ⟨"u1", "Alice"⟩) init (Except.ok "tok")).1
        = Except.ok (s1, some "tok") ∧
      s1.user = some ⟨"u1", "Alice"⟩ ∧
      mapFind s1.mapping "u1" = some ⟨"u1", "Alice"⟩ ∧
      s1.token = some "tok" :=
  (c9_login_seeds_cache (fun _ => ⟨"u1", "Alice"⟩) init "tok" rfl
    (by decide)).1

/-- C10: on a state with an active connection, endGame clears the snapshot
and tells the transport to tear the current handle down, but unlike
disconnect it leaves the stored handle, the connection error and every other
field unchanged; in particular the handle reference is still present
afterwards. -/
theorem c10_endGame_frame (s : Ctx) (h : Nat) (hc : s.connection = some h) :
    (endGameT s).1.playerState = none ∧
    (endGameT s).2 = some h ∧
    (endGameT s).1.connection = some h ∧
    (endGameT s).1.connectionError = s.connectionError ∧
    (endGameT s).1.token = s.token ∧
    (endGameT s).1.events = s.events ∧
    (endGameT s).1.connecting = s.connecting ∧
    (endGameT s).1.mapping = s.mapping ∧
    (endGameT s).1.user = s.user := by
  simp [endGameT, hc]

/-- C10, witness: the theorem evaluated on a connected state with a recorded
connection error. -/
theorem c10_endGame_frame_witness :
    (endGameT sConn).1.playerState = none ∧
    (endGameT sConn).2 = some 0 ∧
    (endGameT sConn).1.connection = some 0 ∧
    (endGameT sConn).1.connectionError = some "e1" :=
  ⟨(c10_endGame_frame sConn 0 rfl).1, (c10_endGame_frame sConn 0 rfl).2.1,
   (c10_endGame_frame sConn 0 rfl).2.2.1,
   by rw [(c10_endGame_frame sConn 0 rfl).2.2.2.1]; rfl⟩

end Hathora
